import Mathlib

/-!
Shallow embedding of the DODGE game core (dodge_game.py and its variants).

Python floats are modelled as rationals, Python ints as Lean integers.
Display labels, sounds and LED effects are omitted; the positional fields
that feed the game logic (claw x position, claw line-3 y position, player x)
are kept as explicit state.  External randomness (random.randint) and clock
reads (time.monotonic) are supplied as oracle inputs to the functions that
consume them.
-/

namespace DodgeGame

/-- Screen width in pixels (SCREEN_WIDTH). -/
def SCREEN_WIDTH : Int := 128

/-- Screen height in pixels (SCREEN_HEIGHT). -/
def SCREEN_HEIGHT : Int := 64

/-- Claw sprite width in pixels (CLAW_WIDTH). -/
def CLAW_WIDTH : Int := 40

/-- Base y of the claw's third (lowest) text line (CLAW_Y3_BASE). -/
def CLAW_Y3_BASE : Int := 22

/-- Initial claw speed (INITIAL_CLAW_SPEED). -/
def INITIAL_CLAW_SPEED : ℚ := 3

/-- Per-level claw speed increment (CLAW_SPEED_STEP = 0.25). -/
def CLAW_SPEED_STEP : ℚ := 1 / 4

/-- Off-screen claw reset offset (CLAW_RESET_Y). -/
def CLAW_RESET_Y : Int := -10

/-- Number of discrete steps of the multiplayer drop animation (DROP_STEPS). -/
def DROP_STEPS : Nat := 10

/-- Pixels per drop step (DROP_STEP_PIXELS). -/
def DROP_STEP_PIXELS : Int := 3

/-- Lower bound of the calibrated accelerometer range (ACCEL_MIN = -9.0). -/
def ACCEL_MIN : ℚ := -9

/-- Upper bound of the calibrated accelerometer range (ACCEL_MAX = 9.0). -/
def ACCEL_MAX : ℚ := 9

/-- Player sprite width in pixels (PLAYER_WIDTH). -/
def PLAYER_WIDTH : Int := 8

/-- Fixed player row (PLAYER_Y). -/
def PLAYER_Y : Int := 52

/-- Seconds-to-survive target of each level (LEVEL_DATA). -/
def LEVEL_DATA : List ℚ := [3, 5, 7, 10, 13, 15, 17, 15, 13, 10]

/-- Minimum time between hits in seconds (HIT_COOLDOWN = 0.5). -/
def HIT_COOLDOWN : ℚ := 1 / 2

/-- Python's truncating int() conversion on a float, modelled on ℚ:
truncation toward zero. -/
def py_int (q : ℚ) : Int :=
  if q < 0 then ⌈q⌉ else ⌊q⌋

/-- The map_range utility of dodge_game.py (identical in lib/code.py):
degenerate input range returns out_min, otherwise x is clamped to
[in_min, in_max] and mapped linearly onto [out_min, out_max]. -/
def map_range (x in_min in_max out_min out_max : ℚ) : ℚ :=
  if in_min = in_max then out_min
  else
    let x1 := if x < in_min then in_min else x
    let x2 := if x1 > in_max then in_max else x1
    out_min + (out_max - out_min) * (x2 - in_min) / (in_max - in_min)

/-- check_collision of dodge_game.py as a function of the claw base x
(claw_line3.x), the claw's lowest line y (claw_line3.y) and the player x. -/
def check_collision (claw_base_x claw_bottom player_x : Int) : Bool :=
  let left_grabber_x := claw_base_x + (2 * 6) + 2
  let right_grabber_x := claw_base_x + (5 * 6) + 2
  let grabber_width : Int := 2
  let player_center := player_x + PLAYER_WIDTH / 2
  let player_radius : Int := 3
  if claw_bottom ≥ PLAYER_Y - 2 ∧ claw_bottom ≤ PLAYER_Y + 4 then
    let left_hit := player_center ≥ left_grabber_x - player_radius ∧
      player_center ≤ left_grabber_x + grabber_width + player_radius
    let right_hit := player_center ≥ right_grabber_x - player_radius ∧
      player_center ≤ right_grabber_x + grabber_width + player_radius
    let caught_between := player_center > left_grabber_x + grabber_width ∧
      player_center < right_grabber_x
    decide (left_hit ∨ right_hit ∨ caught_between)
  else false

/-- A leaderboard record: (initials, score), as stored in high_scores. -/
abbrev HSRec := String × Int

/-- is_high_score of dodge_game.py: fewer than 3 entries always qualify,
otherwise the score must strictly exceed the last entry's score
(high_scores[-1][1]; the getD default is unreachable because the else
branch has a list of length at least 3). -/
def is_high_score (high_scores : List HSRec) (score_val : Int) : Bool :=
  if high_scores.length < 3 then true
  else decide (score_val > ((high_scores.getLast?).getD (("AAA"), 0)).2)

/-- The ordering used by high_scores.sort(key=lambda x: x[1], reverse=True):
record a may precede record b when a's score is at least b's. -/
def score_ge (a b : HSRec) : Prop := b.2 ≤ a.2

instance : DecidableRel score_ge :=
  fun a b => inferInstanceAs (Decidable (b.2 ≤ a.2))

instance : IsTotal HSRec score_ge :=
  ⟨fun a b => le_total b.2 a.2⟩

instance : IsTrans HSRec score_ge :=
  ⟨fun _ _ _ hab hbc => le_trans hbc hab⟩

/-- Stable descending sort by score (models high_scores.sort(...);
a stable insertion sort reproduces the output of Python's stable sort). -/
def sortDesc (l : List HSRec) : List HSRec := l.insertionSort score_ge

/-- add_high_score of dodge_game.py: append, sort descending by score,
keep the top 3 (the save to flash is an external effect and is omitted). -/
def add_high_score (high_scores : List HSRec) (initials : String)
    (score_val : Int) : List HSRec :=
  (sortDesc (high_scores ++ [(initials, score_val)])).take 3

/-- Default leaderboard used when the file is missing or unreadable. -/
def default_scores : List HSRec := [(("AAA"), 0), (("AAA"), 0), (("AAA"), 0)]

/-- The field separator of the leaderboard file format. -/
def comma : String := ","

/-- The per-line parsing loop of load_high_scores: blank lines and lines
without exactly two comma-separated fields are skipped; a second field that
is not an integer raises in int(), aborting the whole load (returns none). -/
def parse_score_lines : List String → Option (List HSRec)
  | [] => some []
  | line :: rest =>
    let l := line.trim
    if l.isEmpty then parse_score_lines rest
    else
      match l.splitOn comma with
      | [initials, score_str] =>
        match score_str.toInt? with
        | some n => (parse_score_lines rest).map (fun rs => (initials, n) :: rs)
        | none => none
      | _ => parse_score_lines rest

/-- load_high_scores of dodge_game.py over an abstract file: none models a
missing/unreadable file; any exception (including a non-integer score
field) yields the three placeholder records, otherwise the parsed records
are sorted descending and truncated to 3. -/
def load_high_scores (file : Option (List String)) : List HSRec :=
  match file with
  | none => default_scores
  | some lines =>
    match parse_score_lines lines with
    | none => default_scores
    | some recs => (sortDesc recs).take 3

/-- One buffered serial line as seen by process_uart, classified by the
outcome of the external decode()/float() builtins: a line whose bytes do
not decode, a well-formed AIM line carrying payload v, an AIM line whose
payload float() rejects, the exact FIRE:1 line, or any other text. -/
inductive UartLine where
  | undecodable : UartLine
  | aim_ok (v : ℚ) : UartLine
  | aim_bad : UartLine
  | fire_cmd : UartLine
  | other : UartLine

/-- The drain loop of process_uart: folds the buffered lines over the
stored (opponent_aim_raw, fire_flag) pair.  Undecodable, malformed and
unrecognized lines leave both unchanged. -/
def process_uart (aim : ℚ) (fire : Bool) : List UartLine → ℚ × Bool
  | [] => (aim, fire)
  | UartLine.undecodable :: rest => process_uart aim fire rest
  | UartLine.aim_ok v :: rest => process_uart v fire rest
  | UartLine.aim_bad :: rest => process_uart aim fire rest
  | UartLine.fire_cmd :: rest => process_uart aim true rest
  | UartLine.other :: rest => process_uart aim fire rest

/-- Payload of the last well-formed AIM line of a drained sequence. -/
def last_aim : List UartLine → Option ℚ
  | [] => none
  | UartLine.aim_ok v :: rest => some ((last_aim rest).getD v)
  | _ :: rest => last_aim rest

/-- Whether any drained line is the FIRE:1 command. -/
def has_fire : List UartLine → Bool
  | [] => false
  | UartLine.fire_cmd :: _ => true
  | _ :: rest => has_fire rest

/-- The per-tick player movement of the main loop: a failed accelerometer
read substitutes ax = 0, the tilt is mapped onto [-10, 10], truncated,
added to the position, and the position is clamped to
[0, SCREEN_WIDTH - PLAYER_WIDTH]. -/
def player_move (player_x : Int) (accel : Option ℚ) : Int :=
  let ax := accel.getD 0
  let move_speed := map_range ax ACCEL_MIN ACCEL_MAX (-10) 10
  let p := player_x + py_int move_speed
  let p1 := if p < 0 then 0 else p
  if p1 > SCREEN_WIDTH - PLAYER_WIDTH then SCREEN_WIDTH - PLAYER_WIDTH else p1

/-- The difficulty strings of DIFFICULTY_OPTIONS. -/
inductive Difficulty where
  | easy : Difficulty
  | medium : Difficulty
  | hard : Difficulty
  | multiplayer : Difficulty
deriving DecidableEq

/-- The values taken by the game_state string variable. -/
inductive GState where
  | playing : GState
  | game_over : GState
  | win : GState
  | show_high_scores : GState
deriving DecidableEq

/-- The module-level mutable state of dodge_game.py that feeds the game
logic.  claw_x models the common x of the three claw label lines;
claw_line3_y models claw_line3.y, the only label y the logic reads
(set_claw_y writes CLAW_Y3_BASE + offset into it, menus park it at -100).
multiplayer_active also stands for uart being non-None: the two are set
and cleared together.  Display label texts, sounds and LEDs are omitted. -/
structure GameState where
  in_menu : Bool
  menu_index : Int
  difficulty : Option Difficulty
  current_level_index : Nat
  level_time_target : ℚ
  level_start_time : ℚ
  game_state : GState
  lives : Int
  score : Int
  player_x : Int
  claw_y_offset : ℚ
  claw_speed : ℚ
  claw_has_hit : Bool
  last_hit_time : ℚ
  claw_x : Int
  claw_line3_y : Int
  high_scores : List HSRec
  entering_initials : Bool
  initial_index : Nat
  current_initials : List Char
  multiplayer_active : Bool
  opponent_aim_raw : ℚ
  fire_flag : Bool
  last_player_x : Int
  last_btn_state : Bool
  rot_last_state : Bool

/-- External inputs consumed by one iteration of the main loop: the button
and encoder levels, the tilt reading (none models a sensor read failure),
the tick's time.monotonic reading, the drained serial lines, whether a
UART open succeeds, whether a UART write succeeds, and the first and
second random.randint draws a tick may perform. -/
structure TickInput where
  btn : Bool
  rot_a : Bool
  rot_b : Bool
  accel : Option ℚ
  now : ℚ
  uart_lines : List UartLine
  uart_ok : Bool
  send_ok : Bool
  rand1 : Int
  rand2 : Int

/-- reset_claw_spawn of dodge_game.py: park the claw offset off-screen,
clear the hit flag, and set the claw x either to the randint draw over
[-10, SCREEN_WIDTH - CLAW_WIDTH + 10] (rand_x_draw models that draw) or
to the centered position.  The claw label y values are not touched. -/
def reset_claw_spawn (s : GameState) (rand_x_draw : Int)
    (random_x : Bool) : GameState :=
  let x := if random_x then rand_x_draw else (SCREEN_WIDTH - CLAW_WIDTH) / 2
  { s with claw_y_offset := ((CLAW_RESET_Y : Int) : ℚ), claw_has_hit := false,
           claw_x := x }

/-- deinit_multiplayer_uart: drop the UART and leave multiplayer. -/
def deinit_multiplayer_uart (s : GameState) : GameState :=
  { s with multiplayer_active := false }

/-- init_multiplayer_uart: on success activate multiplayer and reset the
link state; on failure (the UART constructor raises) deactivate it and
leave the link state untouched. -/
def init_multiplayer_uart (s : GameState) (ok : Bool) : GameState :=
  if ok then
    { s with multiplayer_active := true, opponent_aim_raw := 0,
             fire_flag := false }
  else { s with multiplayer_active := false }

/-- start_easy of dodge_game.py. -/
def start_easy (s : GameState) (now : ℚ) (rand : Int) : GameState :=
  let s := { s with difficulty := some Difficulty.easy,
                    current_level_index := 0, level_start_time := now,
                    game_state := GState.playing, lives := 3, score := 0 }
  let s := reset_claw_spawn s rand true
  let s := { s with claw_speed := INITIAL_CLAW_SPEED }
  deinit_multiplayer_uart s

/-- start_medium of dodge_game.py (claw speed offset 0.4). -/
def start_medium (s : GameState) (now : ℚ) (rand : Int) : GameState :=
  let s := { s with difficulty := some Difficulty.medium,
                    current_level_index := 0, level_start_time := now,
                    game_state := GState.playing, lives := 3, score := 0 }
  let s := reset_claw_spawn s rand true
  let s := { s with claw_speed := INITIAL_CLAW_SPEED + 2 / 5 }
  deinit_multiplayer_uart s

/-- start_hard of dodge_game.py (claw speed offset 0.8). -/
def start_hard (s : GameState) (now : ℚ) (rand : Int) : GameState :=
  let s := { s with difficulty := some Difficulty.hard,
                    current_level_index := 0, level_start_time := now,
                    game_state := GState.playing, lives := 3, score := 0 }
  let s := reset_claw_spawn s rand true
  let s := { s with claw_speed := INITIAL_CLAW_SPEED + 4 / 5 }
  deinit_multiplayer_uart s

/-- start_multiplayer of dodge_game.py.  The source contains the line
"level_time_target = 60.0  # 60 second rounds", but level_time_target is
absent from the function's global declarations, so in Python that
assignment binds a function-local name and the module-level
level_time_target is NOT changed; this embedding reproduces that
behaviour by leaving the field untouched. -/
def start_multiplayer (s : GameState) (now : ℚ) (uart_ok : Bool) : GameState :=
  let s := { s with difficulty := some Difficulty.multiplayer,
                    current_level_index := 0, level_start_time := now,
                    game_state := GState.playing, lives := 3, score := 0,
                    claw_y_offset := ((CLAW_RESET_Y : Int) : ℚ),
                    claw_line3_y := CLAW_Y3_BASE + py_int ((CLAW_RESET_Y : Int) : ℚ),
                    claw_x := (SCREEN_WIDTH - CLAW_WIDTH) / 2 }
  init_multiplayer_uart s uart_ok

/-- start_level_same_difficulty of dodge_game.py: restart the level clock
and, outside multiplayer, respawn the claw and rebase its speed on the
current level index. -/
def start_level_same_difficulty (s : GameState) (now : ℚ)
    (rand : Int) : GameState :=
  let s := { s with level_start_time := now }
  if s.difficulty ≠ some Difficulty.multiplayer then
    let s := reset_claw_spawn s rand true
    { s with claw_speed := INITIAL_CLAW_SPEED +
        CLAW_SPEED_STEP * (s.current_level_index : ℚ) }
  else s

/-- show_menu of dodge_game.py: enter the menu, park the claw centered
with its labels hidden at y = -100, and tear down the UART. -/
def show_menu (s : GameState) : GameState :=
  let s := { s with in_menu := true }
  let s := reset_claw_spawn s 0 false
  let s := { s with claw_line3_y := CLAW_Y3_BASE + CLAW_RESET_Y }
  let s := { s with claw_line3_y := -100 }
  deinit_multiplayer_uart s

/-- show_high_scores of dodge_game.py: beyond label text, it hides the
claw labels at y = -100. -/
def show_high_scores (s : GameState) : GameState :=
  { s with claw_line3_y := -100 }

/-- show_initial_entry of dodge_game.py: begin initial entry at position 0
with letters AAA and hide the claw labels. -/
def show_initial_entry (s : GameState) : GameState :=
  { s with entering_initials := true, initial_index := 0,
           current_initials := [ 'A', 'A', 'A' ], claw_line3_y := -100 }

/-- One step of the drop loop of drop_claw_multiplayer: place the claw at
the step's offset and apply at most one cooldown-gated life loss per drop
(t_enter is the time.monotonic value captured at drop entry, t_hit the one
read when a hit lands). -/
def drop_step (t_enter t_hit : ℚ) (acc : GameState × Bool)
    (k : Nat) : GameState × Bool :=
  let s := acc.1
  let hit_detected := acc.2
  let offset := (k : Int) * DROP_STEP_PIXELS
  let s := { s with claw_y_offset := ((offset : Int) : ℚ),
                    claw_line3_y := CLAW_Y3_BASE + offset }
  if check_collision s.claw_x s.claw_line3_y s.player_x = true ∧
      hit_detected = false ∧ t_enter - s.last_hit_time > HIT_COOLDOWN then
    let s := { s with lives := s.lives - 1, last_hit_time := t_hit }
    let s := if s.lives ≤ 0 then { s with game_state := GState.game_over }
      else s
    (s, true)
  else (s, hit_detected)

/-- drop_claw_multiplayer of dodge_game.py: a scripted down-then-up
animation through DROP_STEPS discrete steps with collision checks on the
way down only; afterwards the offset returns to CLAW_RESET_Y while the
displayed claw line y ends at its base. -/
def drop_claw_multiplayer (s : GameState) (t_enter t_hit : ℚ) : GameState :=
  if s.game_state ≠ GState.playing then s
  else
    let res := (List.range (DROP_STEPS + 1)).foldl
      (drop_step t_enter t_hit) (s, false)
    let s := res.1
    let s := { s with claw_y_offset := 0, claw_line3_y := CLAW_Y3_BASE }
    { s with claw_y_offset := ((CLAW_RESET_Y : Int) : ℚ) }

/-- The menu rotation handling at the top of the main loop: in the menu,
a phase-A edge moves the selection up or down depending on phase B,
wrapping modulo the 4 difficulty options. -/
def menu_rotation (s : GameState) (i : TickInput) : GameState :=
  if s.in_menu = true ∧ i.rot_a ≠ s.rot_last_state then
    if i.rot_a = false then
      let idx := if i.rot_b then s.menu_index + 1 else s.menu_index - 1
      { s with menu_index := idx % 4, rot_last_state := i.rot_a }
    else { s with rot_last_state := i.rot_a }
  else s

/-- The menu-selection branch of the main loop: on a confirm edge leave
the menu and run the start routine of the selected difficulty. -/
def menu_select (s : GameState) (i : TickInput)
    (button_pressed : Bool) : GameState :=
  if button_pressed then
    let sel := s.menu_index
    let s := { s with in_menu := false }
    if sel = 0 then start_easy s i.now i.rand1
    else if sel = 1 then start_medium s i.now i.rand1
    else if sel = 2 then start_hard s i.now i.rand1
    else if sel = 3 then start_multiplayer s i.now i.uart_ok
    else s
  else s

/-- The per-tick UART processing: drain the buffered lines when
multiplayer is active. -/
def uart_phase (s : GameState) (i : TickInput) : GameState :=
  if s.multiplayer_active then
    let r := process_uart s.opponent_aim_raw s.fire_flag i.uart_lines
    { s with opponent_aim_raw := r.1, fire_flag := r.2 }
  else s

/-- send_player_position of dodge_game.py: in multiplayer, send the
position only when it moved by at least 1 unit; last_player_x is updated
only when the write succeeds. -/
def send_phase (s : GameState) (i : TickInput) : GameState :=
  if s.multiplayer_active = true ∧ 1 ≤ |s.player_x - s.last_player_x| then
    if i.send_ok then { s with last_player_x := s.player_x } else s
  else s

/-- The pass-completion check of the single-player claw update: once the
(already advanced) offset is strictly past PLAYER_Y + 8, score a dodge if
the pass had no hit, then respawn at a random x. -/
def sp_pass_complete (s : GameState) (rand : Int) : GameState :=
  if s.claw_y_offset > ((PLAYER_Y : Int) : ℚ) + 8 then
    let s := if s.claw_has_hit = false then { s with score := s.score + 1 }
      else s
    reset_claw_spawn s rand true
  else s

/-- The single-player hit application: one life is lost when the collision
predicate holds, the pass's hit flag is clear, and more than HIT_COOLDOWN
has elapsed since the last hit; at 0 lives the game ends. -/
def sp_hit_check (s : GameState) (now : ℚ) : GameState :=
  if s.claw_has_hit = false ∧
      check_collision s.claw_x s.claw_line3_y s.player_x = true ∧
      now - s.last_hit_time > HIT_COOLDOWN then
    let s := { s with lives := s.lives - 1, claw_has_hit := true,
                      last_hit_time := now }
    if s.lives ≤ 0 then { s with game_state := GState.game_over } else s
  else s

/-- The claw-control section of the main loop.  In multiplayer the claw x
follows the opponent aim and a pending fire command runs the blocking drop
animation.  In single player the claw falls by claw_speed and the
displayed line y follows the truncated offset, then the pass-completion
check and the hit application run. -/
def claw_phase (s : GameState) (i : TickInput) : GameState :=
  if s.difficulty = some Difficulty.multiplayer ∧
      s.multiplayer_active = true then
    let cx := py_int (map_range s.opponent_aim_raw ACCEL_MIN ACCEL_MAX 0
      (((SCREEN_WIDTH - CLAW_WIDTH : Int)) : ℚ))
    let s := { s with claw_x := cx }
    if s.fire_flag = true ∧ s.game_state = GState.playing then
      let s := drop_claw_multiplayer s i.now i.now
      { s with fire_flag := false }
    else s
  else if s.game_state = GState.playing then
    let off := s.claw_y_offset + s.claw_speed
    let s := { s with claw_y_offset := off,
                      claw_line3_y := CLAW_Y3_BASE + py_int off }
    sp_hit_check (sp_pass_complete s i.rand1) i.now
  else s

/-- The round-completion section of the main loop: outside multiplayer,
advance to the next level or win after the last one; in multiplayer,
always win when the round time is up. -/
def level_phase (s : GameState) (i : TickInput) (remaining : ℚ) : GameState :=
  if s.difficulty ≠ some Difficulty.multiplayer ∧
      s.game_state = GState.playing ∧ remaining ≤ 0 then
    if s.current_level_index < LEVEL_DATA.length - 1 then
      let idx := s.current_level_index + 1
      let s := { s with current_level_index := idx,
                        level_time_target := LEVEL_DATA.getD idx 0 }
      start_level_same_difficulty s i.now i.rand2
    else { s with game_state := GState.win }
  else if s.difficulty = some Difficulty.multiplayer ∧
      s.game_state = GState.playing ∧ remaining ≤ 0 then
    { s with game_state := GState.win }
  else s

/-- Clockwise letter cycling of the initial entry (A..Z wrapping up). -/
def cycle_letter_up (c : Char) : Char :=
  if Char.toNat 'Z' < c.toNat + 1 then 'A' else Char.ofNat (c.toNat + 1)

/-- Counter-clockwise letter cycling of the initial entry (wrapping down). -/
def cycle_letter_down (c : Char) : Char :=
  if c.toNat - 1 < Char.toNat 'A' then 'Z' else Char.ofNat (c.toNat - 1)

/-- The high-score/menu handling at the bottom of the main loop: initial
entry (rotation cycles the letter, the button advances and finally commits
to the leaderboard), the high-score screen (button returns to the menu and
sets game_state back to PLAYING), and on GAME_OVER/WIN the immediate
qualification check.  The getD default is unreachable: initial_index stays
in 0..2 while entering_initials is set. -/
def hs_menu_phase (s : GameState) (i : TickInput)
    (button_pressed : Bool) : GameState :=
  if s.entering_initials = true then
    let s :=
      if i.rot_a ≠ s.rot_last_state then
        let s :=
          if i.rot_a = false then
            let c := s.current_initials.getD s.initial_index 'A'
            let c2 := if i.rot_b then cycle_letter_up c else cycle_letter_down c
            { s with current_initials :=
                s.current_initials.set s.initial_index c2 }
          else s
        { s with rot_last_state := i.rot_a }
      else s
    if button_pressed then
      let idx := s.initial_index + 1
      if 3 ≤ idx then
        let str := String.mk s.current_initials
        let s := { s with
          high_scores := add_high_score s.high_scores str s.score,
          entering_initials := false, game_state := GState.show_high_scores,
          initial_index := idx }
        show_high_scores s
      else { s with initial_index := idx }
    else s
  else if s.game_state = GState.show_high_scores then
    if button_pressed then
      let s := show_menu s
      { s with game_state := GState.playing }
    else s
  else if s.game_state = GState.game_over ∨ s.game_state = GState.win then
    if is_high_score s.high_scores s.score then show_initial_entry s
    else show_high_scores { s with game_state := GState.show_high_scores }
  else s

/-- One iteration of the main loop of dodge_game.py (one tick): button
edge detection, menu rotation, the early-exit menu branch, then UART
drain, timer, player movement, position send, claw control, round
completion, and high-score/menu handling.  All time.monotonic reads of
one iteration are modelled by the single input clock i.now. -/
def tick (s : GameState) (i : TickInput) : GameState :=
  let button_pressed := s.last_btn_state && !i.btn
  let s := { s with last_btn_state := i.btn }
  let s := menu_rotation s i
  if s.in_menu then menu_select s i button_pressed
  else
    let s := uart_phase s i
    let remaining0 := s.level_time_target - (i.now - s.level_start_time)
    let remaining := if remaining0 < 0 then 0 else remaining0
    let s := { s with player_x := player_move s.player_x i.accel }
    let s := send_phase s i
    let s := claw_phase s i
    let s := level_phase s i remaining
    hs_menu_phase s i button_pressed

/-- The module state right after startup: globals initialized at module
level, high scores loaded (the concrete board is immaterial; the defaults
stand in), then show_menu() ran.  level_time_target is LEVEL_DATA[0]. -/
def boot_state : GameState :=
  { in_menu := true, menu_index := 0, difficulty := none,
    current_level_index := 0, level_time_target := 3, level_start_time := 0,
    game_state := GState.playing, lives := 3, score := 0, player_x := 64,
    claw_y_offset := -10, claw_speed := 3, claw_has_hit := false,
    last_hit_time := 0, claw_x := 44, claw_line3_y := -100,
    high_scores := default_scores, entering_initials := false,
    initial_index := 0, current_initials := [ 'A', 'A', 'A' ],
    multiplayer_active := false, opponent_aim_raw := 0, fire_flag := false,
    last_player_x := 0, last_btn_state := true, rot_last_state := true }

/-- A concrete single-player Playing state: easy difficulty, the claw at
offset 27 with speed 3 and base x 0, the player at x 10 (so the player
center sits exactly on the left grabber once the claw reaches the row),
hit flag clear, last hit at time 0. -/
def cex7_state : GameState :=
  { in_menu := false, menu_index := 0, difficulty := some Difficulty.easy,
    current_level_index := 0, level_time_target := 3, level_start_time := 0,
    game_state := GState.playing, lives := 3, score := 0, player_x := 10,
    claw_y_offset := 27, claw_speed := 3, claw_has_hit := false,
    last_hit_time := 0, claw_x := 0, claw_line3_y := 49,
    high_scores := default_scores, entering_initials := false,
    initial_index := 0, current_initials := [ 'A', 'A', 'A' ],
    multiplayer_active := false, opponent_aim_raw := 0, fire_flag := false,
    last_player_x := 10, last_btn_state := false, rot_last_state := false }

/-- A quiet tick input at clock 3/10: no button, no rotation, neutral
tilt, no serial traffic. -/
def cex7_input : TickInput :=
  { btn := false, rot_a := false, rot_b := false, accel := some 0,
    now := 3 / 10, uart_lines := [], uart_ok := false, send_ok := false,
    rand1 := 44, rand2 := 44 }

/-- The same quiet input at clock 1 (cooldown satisfied). -/
def wit7_input : TickInput := { cex7_input with now := 1 }

/-- A single-player Playing state one step before pass completion: the
claw offset 58 plus speed 3 passes PLAYER_Y + 8 = 60 on the next tick. -/
def wit8_state : GameState :=
  { cex7_state with claw_y_offset := 58, score := 5 }

/-- A concrete leaderboard with scores [50, 30, 10] for the C1 checks. -/
def demo_board : List HSRec := [(("AAA"), 50), (("BBB"), 30), (("CCC"), 10)]

/-- Counterexample for C1: on the board with scores [50, 30, 10] a
candidate score of 50 qualifies (50 strictly exceeds the lowest entry 10),
whereas the claim's example says it yields false. -/
theorem C1_counterexample : is_high_score demo_board 50 = true := by
  decide

/-- C1 (amended): is_high_score returns true whenever the board holds
fewer than 3 entries; once the board is full (3 entries) it returns true
exactly when the candidate strictly exceeds the 3rd entry's score; on the
board with scores [50, 30, 10]: 10 is rejected, 11 accepted, 50 accepted
(it strictly exceeds the lowest entry 10), 51 accepted. -/
theorem C1_is_high_score :
    (∀ (hs : List HSRec) (v : Int), hs.length < 3 → is_high_score hs v = true) ∧
    (∀ (a b c : HSRec) (v : Int), is_high_score [a, b, c] v = true ↔ c.2 < v) ∧
    is_high_score demo_board 10 = false ∧
    is_high_score demo_board 11 = true ∧
    is_high_score demo_board 50 = true ∧
    is_high_score demo_board 51 = true := by
  refine ⟨?_, ?_, ?_, ?_, ?_, ?_⟩
  · intro hs v h
    simp [is_high_score, h]
  · intro a b c v
    simp [is_high_score, List.getLast?]
  · decide
  · decide
  · decide
  · decide

/-- Witness for C1: the board-not-full clause applied to the empty board. -/
theorem C1_is_high_score_witness : is_high_score [] 0 = true :=
  C1_is_high_score.1 [] 0 (by decide)

/-- C3: map_range returns out_min for a degenerate input range, clamps to
out_min below the range, clamps to out_max above the range, and linearly
interpolates inside the range; as a Lean function it is pure and
deterministic by construction. -/
theorem C3_map_range :
    (∀ x a o1 o2 : ℚ, map_range x a a o1 o2 = o1) ∧
    (∀ x a b o1 o2 : ℚ, a < b → x < a → map_range x a b o1 o2 = o1) ∧
    (∀ x a b o1 o2 : ℚ, a < b → b < x → map_range x a b o1 o2 = o2) ∧
    (∀ x a b o1 o2 : ℚ, a < b → a ≤ x → x ≤ b →
      map_range x a b o1 o2 = o1 + (o2 - o1) * (x - a) / (b - a)) := by
  refine ⟨?_, ?_, ?_, ?_⟩
  · intro x a o1 o2
    simp [map_range]
  · intro x a b o1 o2 hab hx
    have hne : a ≠ b := ne_of_lt hab
    simp only [map_range, if_neg hne, if_pos hx, if_neg (not_lt.mpr hab.le)]
    simp
  · intro x a b o1 o2 hab hx
    have hne : a ≠ b := ne_of_lt hab
    have hxa : ¬(x < a) := not_lt.mpr (le_of_lt (lt_trans hab hx))
    simp only [map_range, if_neg hne, if_neg hxa, if_pos hx]
    have hba : b - a ≠ 0 := sub_ne_zero.mpr (ne_of_gt hab)
    rw [mul_div_assoc, div_self hba, mul_one]
    ring
  · intro x a b o1 o2 hab hax hxb
    have hne : a ≠ b := ne_of_lt hab
    simp only [map_range, if_neg hne, if_neg (not_lt.mpr hax),
      if_neg (not_lt.mpr hxb)]

/-- Witness for C3: the four clauses at concrete inputs. -/
theorem C3_map_range_witness :
    map_range 0 5 5 7 9 = 7 ∧
    map_range 1 2 4 0 10 = 0 ∧
    map_range 5 2 4 0 10 = 10 ∧
    map_range 3 2 4 0 10 = 0 + (10 - 0) * (3 - 2) / (4 - 2) :=
  ⟨C3_map_range.1 0 5 7 9,
   C3_map_range.2.1 1 2 4 0 10 (by norm_num) (by norm_num),
   C3_map_range.2.2.1 5 2 4 0 10 (by norm_num) (by norm_num),
   C3_map_range.2.2.2 3 2 4 0 10 (by norm_num) (by norm_num) (by norm_num)⟩

/-- One player-movement update always lands inside the screen bounds. -/
theorem player_move_bounds (x : Int) (a : Option ℚ) :
    0 ≤ player_move x a ∧ player_move x a ≤ SCREEN_WIDTH - PLAYER_WIDTH := by
  simp only [player_move, SCREEN_WIDTH, PLAYER_WIDTH]
  split_ifs <;> omega

/-- C4: starting inside [0, SCREEN_WIDTH - PLAYER_WIDTH], the player
position stays inside that interval after any sequence of ticks of the
player-movement update, for arbitrary tilt readings including
sensor-failure ticks (modelled as none). -/
theorem C4_player_position_bounded :
    ∀ (ticks : List (Option ℚ)) (x0 : Int),
      0 ≤ x0 → x0 ≤ SCREEN_WIDTH - PLAYER_WIDTH →
      0 ≤ ticks.foldl player_move x0 ∧
        ticks.foldl player_move x0 ≤ SCREEN_WIDTH - PLAYER_WIDTH := by
  intro ticks
  induction ticks with
  | nil =>
    intro x0 h1 h2
    exact ⟨h1, h2⟩
  | cons a t ih =>
    intro x0 _ _
    simpa using ih (player_move x0 a) (player_move_bounds x0 a).1
      (player_move_bounds x0 a).2

/-- Witness for C4: a huge tilt, a sensor failure and a huge negative tilt
starting from the boot position 64. -/
theorem C4_player_position_bounded_witness :
    0 ≤ [some 1000, none, some (-1000)].foldl player_move 64 ∧
      [some 1000, none, some (-1000)].foldl player_move 64 ≤
        SCREEN_WIDTH - PLAYER_WIDTH :=
  C4_player_position_bounded [some 1000, none, some (-1000)] 64
    (by norm_num) (by norm_num [SCREEN_WIDTH, PLAYER_WIDTH])

/-- C5: the leaderboard invariant (at most 3 records, sorted descending by
score) holds after add_high_score on any board satisfying it, and after
load_high_scores on any file contents: missing file, corrupt lines, more
than 3 lines, or unsorted lines. -/
theorem C5_leaderboard_invariant :
    (∀ (hs : List HSRec) (ini : String) (v : Int), hs.Sorted score_ge →
      (add_high_score hs ini v).length ≤ 3 ∧
        (add_high_score hs ini v).Sorted score_ge) ∧
    (∀ file : Option (List String),
      (load_high_scores file).length ≤ 3 ∧
        (load_high_scores file).Sorted score_ge) := by
  have hsorted : ∀ l : List HSRec, (sortDesc l).Sorted score_ge :=
    fun l => List.sorted_insertionSort score_ge l
  have htake : ∀ l : List HSRec, l.Sorted score_ge →
      (l.take 3).Sorted score_ge :=
    fun l h => h.sublist (List.take_sublist 3 l)
  have hlen : ∀ l : List HSRec, (l.take 3).length ≤ 3 := by
    intro l
    simp [List.length_take]
  constructor
  · intro hs ini v _
    exact ⟨hlen _, htake _ (hsorted _)⟩
  · intro file
    match file with
    | none => exact ⟨by decide, by decide⟩
    | some lines =>
      simp only [load_high_scores]
      match parse_score_lines lines with
      | none => exact ⟨by decide, by decide⟩
      | some recs => exact ⟨hlen _, htake _ (hsorted _)⟩

/-- Witness for C5: adding to a sorted two-entry board, and loading a file
with four unsorted lines one of which is blank and one malformed. -/
theorem C5_leaderboard_invariant_witness :
    ((add_high_score [(("AAA"), 9), (("BBB"), 4)] (("CCC")) 7).length ≤ 3 ∧
      (add_high_score [(("AAA"), 9), (("BBB"), 4)] (("CCC")) 7).Sorted
        score_ge) ∧
    ((load_high_scores (some [(("AB,3")), (("junk")), (("")),
        (("CD,11"))])).length ≤ 3 ∧
      (load_high_scores (some [(("AB,3")), (("junk")), (("")),
        (("CD,11"))])).Sorted score_ge) :=
  ⟨C5_leaderboard_invariant.1 [(("AAA"), 9), (("BBB"), 4)] (("CCC")) 7
    (by decide),
   C5_leaderboard_invariant.2 (some [(("AB,3")), (("junk")), (("")),
    (("CD,11"))])⟩

/-- Arithmetic characterization of check_collision, shared by several
proofs below. -/
theorem check_collision_iff (cx y px : Int) :
    check_collision cx y px = true ↔
      ((PLAYER_Y - 2 ≤ y ∧ y ≤ PLAYER_Y + 4) ∧
        ((cx + 11 ≤ px + 4 ∧ px + 4 ≤ cx + 19) ∨
         (cx + 29 ≤ px + 4 ∧ px + 4 ≤ cx + 37) ∨
         (cx + 16 < px + 4 ∧ px + 4 < cx + 32))) := by
  simp only [check_collision, PLAYER_Y, PLAYER_WIDTH]
  split_ifs with h
  · simp only [decide_eq_true_eq]
    constructor
    · intro hd
      exact ⟨by omega, by omega⟩
    · intro hd
      omega
  · simp only [Bool.false_eq_true, false_iff]
    omega

/-- The collision predicate is false whenever the claw's lowest line is
below the tolerance window (used on respawn ticks, where the line y is far
past the player row). -/
theorem check_collision_eq_false_of_past (cx y px : Int)
    (h : PLAYER_Y + 4 < y) : check_collision cx y px = false := by
  rcases hc : check_collision cx y px with _ | _
  · rfl
  · exact absurd ((check_collision_iff cx y px).mp hc).1.2 (by omega)

/-- C6: characterization of check_collision — true exactly when the claw's
lowest line is within [PLAYER_Y - 2, PLAYER_Y + 4] and the player center
(player_x + 4) is within 3 pixels of the 2-pixel-wide left grabber
(claw x + 14) or right grabber (claw x + 32), or strictly between them;
with the lowest line at the player row it fires with the center exactly at
a grabber and with the center exactly midway between the grabbers, and it
is false whenever the lowest line is above the tolerance window. -/
theorem C6_check_collision :
    (∀ cx y px : Int, check_collision cx y px = true ↔
      ((PLAYER_Y - 2 ≤ y ∧ y ≤ PLAYER_Y + 4) ∧
        ((cx + 11 ≤ px + 4 ∧ px + 4 ≤ cx + 19) ∨
         (cx + 29 ≤ px + 4 ∧ px + 4 ≤ cx + 37) ∨
         (cx + 16 < px + 4 ∧ px + 4 < cx + 32)))) ∧
    (∀ cx y px : Int, y < PLAYER_Y - 2 → check_collision cx y px = false) ∧
    (∀ cx : Int, check_collision cx PLAYER_Y (cx + 10) = true) ∧
    (∀ cx : Int, check_collision cx PLAYER_Y (cx + 19) = true) := by
  refine ⟨check_collision_iff, ?_, ?_, ?_⟩
  · intro cx y px hy
    have hiff := check_collision_iff cx y px
    simp only [PLAYER_Y] at hy hiff ⊢
    rcases h : check_collision cx y px with _ | _
    · rfl
    · exact absurd ((hiff.mp h).1.1) (by omega)
  · intro cx
    rw [check_collision_iff]
    exact ⟨by simp [PLAYER_Y], Or.inl ⟨by omega, by omega⟩⟩
  · intro cx
    rw [check_collision_iff]
    exact ⟨by simp [PLAYER_Y], Or.inr (Or.inr ⟨by omega, by omega⟩)⟩

/-- Witness for C6: the claw-above-window clause at concrete positions. -/
theorem C6_check_collision_witness : check_collision 40 10 44 = false :=
  C6_check_collision.2.1 40 10 44 (by decide)

/-- C9: after draining any buffered line sequence, the stored aim equals
the payload of the last well-formed AIM line (unchanged if none), the fire
flag is the previous flag OR-ed with the presence of a FIRE:1 line, and
undecodable, malformed-AIM and unrecognized lines change nothing. -/
theorem C9_process_uart_drain :
    ∀ (aim : ℚ) (fire : Bool) (lines : List UartLine),
      process_uart aim fire lines =
        ((last_aim lines).getD aim, fire || has_fire lines) := by
  intro aim fire lines
  induction lines generalizing aim fire with
  | nil => simp [process_uart, last_aim, has_fire]
  | cons hd t ih =>
    cases hd <;> simp [process_uart, last_aim, has_fire, ih]

/-- sp_pass_complete as one conditional state equation. -/
theorem sp_pass_complete_eq (s : GameState) (r : Int) :
    sp_pass_complete s r =
      if s.claw_y_offset > ((PLAYER_Y : Int) : ℚ) + 8 then
        { s with score := if s.claw_has_hit = false then s.score + 1
                   else s.score,
                 claw_y_offset := ((CLAW_RESET_Y : Int) : ℚ),
                 claw_has_hit := false, claw_x := r }
      else s := by
  simp only [sp_pass_complete, reset_claw_spawn]
  split_ifs <;> rfl

/-- sp_hit_check as one conditional state equation. -/
theorem sp_hit_check_eq (s : GameState) (now : ℚ) :
    sp_hit_check s now =
      if s.claw_has_hit = false ∧
          check_collision s.claw_x s.claw_line3_y s.player_x = true ∧
          now - s.last_hit_time > HIT_COOLDOWN then
        { s with lives := s.lives - 1, claw_has_hit := true,
                 last_hit_time := now,
                 game_state := if s.lives - 1 ≤ 0 then GState.game_over
                   else s.game_state }
      else s := by
  simp only [sp_hit_check]
  split_ifs <;> rfl

/-- Outside the menu, the rotation handler is the identity. -/
theorem menu_rotation_of_not_menu (s : GameState) (i : TickInput)
    (h : s.in_menu = false) : menu_rotation s i = s := by
  simp only [menu_rotation]
  rw [if_neg]
  simp [h]

/-- With multiplayer inactive, the UART drain phase is the identity. -/
theorem uart_phase_of_inactive (s : GameState) (i : TickInput)
    (h : s.multiplayer_active = false) : uart_phase s i = s := by
  simp [uart_phase, h]

/-- With multiplayer inactive, the position-send phase is the identity. -/
theorem send_phase_of_inactive (s : GameState) (i : TickInput)
    (h : s.multiplayer_active = false) : send_phase s i = s := by
  simp [send_phase, h]

/-- With time still remaining, the round-completion phase is the identity. -/
theorem level_phase_of_pos (s : GameState) (i : TickInput) (r : ℚ)
    (h : 0 < r) : level_phase s i r = s := by
  have hr : ¬(r ≤ 0) := not_le.mpr h
  have hc1 : ¬(s.difficulty ≠ some Difficulty.multiplayer ∧
      s.game_state = GState.playing ∧ r ≤ 0) := fun hc => hr hc.2.2
  have hc2 : ¬(s.difficulty = some Difficulty.multiplayer ∧
      s.game_state = GState.playing ∧ r ≤ 0) := fun hc => hr hc.2.2
  simp only [level_phase]
  rw [if_neg hc1, if_neg hc2]

/-- The round-completion phase never changes the lives counter. -/
theorem level_phase_lives (s : GameState) (i : TickInput) (r : ℚ) :
    (level_phase s i r).lives = s.lives := by
  simp only [level_phase, start_level_same_difficulty, reset_claw_spawn]
  split_ifs <;> rfl

/-- The round-completion phase never changes the initial-entry flag. -/
theorem level_phase_entering (s : GameState) (i : TickInput) (r : ℚ) :
    (level_phase s i r).entering_initials = s.entering_initials := by
  simp only [level_phase, start_level_same_difficulty, reset_claw_spawn]
  split_ifs <;> rfl

/-- Outside initial entry, the bottom phase never changes the lives
counter. -/
theorem hs_menu_phase_lives (s : GameState) (i : TickInput) (b : Bool)
    (h : s.entering_initials = false) :
    (hs_menu_phase s i b).lives = s.lives := by
  simp only [hs_menu_phase, h, Bool.false_eq_true, if_false, show_menu,
    show_high_scores, show_initial_entry, reset_claw_spawn,
    deinit_multiplayer_uart]
  split_ifs <;> rfl

/-- Outside initial entry and with the session still Playing, the bottom
phase is the identity. -/
theorem hs_menu_phase_of_playing (s : GameState) (i : TickInput) (b : Bool)
    (h1 : s.entering_initials = false)
    (h2 : s.game_state = GState.playing) :
    hs_menu_phase s i b = s := by
  simp [hs_menu_phase, h1, h2]

/-- In a non-multiplayer Playing tick, the claw phase is the pass
completion followed by the hit check on the advanced claw. -/
theorem claw_phase_sp (s : GameState) (i : TickInput)
    (hd : s.difficulty ≠ some Difficulty.multiplayer)
    (hg : s.game_state = GState.playing) :
    claw_phase s i =
      sp_hit_check (sp_pass_complete
        { s with claw_y_offset := s.claw_y_offset + s.claw_speed,
                 claw_line3_y := CLAW_Y3_BASE +
                   py_int (s.claw_y_offset + s.claw_speed) } i.rand1)
        i.now := by
  have hnot : ¬(s.difficulty = some Difficulty.multiplayer ∧
      s.multiplayer_active = true) := fun hc => hd hc.1
  simp only [claw_phase, if_neg hnot, if_pos hg]

/-- Outside the menu, one tick is the straight-line composition of the
gameplay phases. -/
theorem tick_not_menu (s : GameState) (i : TickInput)
    (h1 : s.in_menu = false) :
    tick s i =
      (let s1 : GameState := { s with last_btn_state := i.btn }
       let s2 := uart_phase s1 i
       let remaining0 := s2.level_time_target - (i.now - s2.level_start_time)
       let remaining := if remaining0 < 0 then 0 else remaining0
       let s3 := { s2 with player_x := player_move s2.player_x i.accel }
       let s4 := send_phase s3 i
       let s5 := claw_phase s4 i
       let s6 := level_phase s5 i remaining
       hs_menu_phase s6 i (s.last_btn_state && !i.btn)) := by
  have hmr : menu_rotation { s with last_btn_state := i.btn } i
      = { s with last_btn_state := i.btn } :=
    menu_rotation_of_not_menu _ i h1
  simp only [tick]
  rw [hmr]
  simp only [h1, Bool.false_eq_true, if_false]

/-- Supporting fact for the sound half of C2: when a multiplayer session
is Playing and the clamped remaining time is 0, the round-completion
branch moves to Win without touching the level index. -/
theorem level_phase_multiplayer_win (s : GameState) (i : TickInput) (r : ℚ)
    (h1 : s.difficulty = some Difficulty.multiplayer)
    (h2 : s.game_state = GState.playing) (h3 : r ≤ 0) :
    (level_phase s i r).game_state = GState.win ∧
      (level_phase s i r).current_level_index = s.current_level_index := by
  simp [level_phase, h1, h2, h3]

/-- C2 (exhibiting the code bug): start_multiplayer leaves the global
round time target unchanged for every prior state, because the 60-second
assignment in the source binds a function-local name; in particular a
multiplayer session started from the boot state keeps the 3-second target
of LEVEL_DATA[0] rather than the documented flat 60-second round. -/
theorem C2_multiplayer_round_target :
    (∀ (s : GameState) (now : ℚ) (ok : Bool),
      (start_multiplayer s now ok).level_time_target = s.level_time_target) ∧
    (start_multiplayer boot_state 0 true).level_time_target = 3 ∧
    (3 : ℚ) ≠ 60 := by
  refine ⟨?_, ?_, by norm_num⟩
  · intro s now ok
    cases ok <;> rfl
  · rfl

/-- C10: on a tick with the menu flag set and no confirm-press edge, the
menu branch exits the tick early, so player position, claw offset, lives,
score, level index, level start time and the high-score list are all left
unchanged (whatever game_state reads at the time). -/
theorem C10_menu_tick_preserves_session (s : GameState) (i : TickInput)
    (h1 : s.in_menu = true) (h2 : (s.last_btn_state && !i.btn) = false) :
    (tick s i).player_x = s.player_x ∧
    (tick s i).claw_y_offset = s.claw_y_offset ∧
    (tick s i).lives = s.lives ∧
    (tick s i).score = s.score ∧
    (tick s i).current_level_index = s.current_level_index ∧
    (tick s i).level_start_time = s.level_start_time ∧
    (tick s i).high_scores = s.high_scores := by
  have hm : (menu_rotation { s with last_btn_state := i.btn } i).in_menu
      = true := by
    simp only [menu_rotation]
    split_ifs <;> exact h1
  simp only [tick, h2, hm, menu_select, Bool.false_eq_true, if_true, if_false]
  refine ⟨?_, ?_, ?_, ?_, ?_, ?_, ?_⟩ <;>
    (simp only [menu_rotation]; split_ifs <;> rfl)

/-- The single-player claw pipeline never changes the initial-entry flag. -/
theorem sp_chain_entering (s : GameState) (r : Int) (now : ℚ) :
    (sp_hit_check (sp_pass_complete s r) now).entering_initials
      = s.entering_initials := by
  rw [sp_hit_check_eq, sp_pass_complete_eq]
  split_ifs <;> rfl

/-- Lives after the single-player claw pipeline: one life is lost exactly
when the post-respawn hit flag is clear, the collision predicate holds at
the post-update positions, and the cooldown has elapsed. -/
theorem sp_chain_lives_char (s : GameState) (r : Int) (now : ℚ) :
    (sp_hit_check (sp_pass_complete s r) now).lives =
      if ((if s.claw_y_offset > ((PLAYER_Y : Int) : ℚ) + 8 then false
            else s.claw_has_hit) = false ∧
          check_collision
            (if s.claw_y_offset > ((PLAYER_Y : Int) : ℚ) + 8 then r
              else s.claw_x) s.claw_line3_y s.player_x = true ∧
          now - s.last_hit_time > HIT_COOLDOWN)
      then s.lives - 1 else s.lives := by
  rw [sp_hit_check_eq, sp_pass_complete_eq]
  by_cases hB : s.claw_y_offset > ((PLAYER_Y : Int) : ℚ) + 8
  · simp only [if_pos hB]
    split_ifs <;> rfl
  · simp only [if_neg hB]
    split_ifs <;> rfl

/-- On a pass-completion tick whose respawned claw cannot collide, the
claw pipeline scores the dodge (absent a hit flag) and respawns. -/
theorem sp_chain_pass_done (s : GameState) (r : Int) (now : ℚ)
    (hoff : s.claw_y_offset > ((PLAYER_Y : Int) : ℚ) + 8)
    (hcol : check_collision r s.claw_line3_y s.player_x = false) :
    sp_hit_check (sp_pass_complete s r) now =
      { s with score := if s.claw_has_hit = false then s.score + 1
                 else s.score,
               claw_y_offset := ((CLAW_RESET_Y : Int) : ℚ),
               claw_has_hit := false, claw_x := r } := by
  rw [sp_pass_complete_eq, if_pos hoff, sp_hit_check_eq, if_neg]
  rintro ⟨-, hc, -⟩
  dsimp only at hc
  rw [hcol] at hc
  exact absurd hc (by simp)

/-- In a non-multiplayer Playing tick outside the menu, the whole tick is
the claw pipeline on the button/player-updated state, followed by the
round-completion and bottom phases. -/
theorem tick_sp (s : GameState) (i : TickInput)
    (h1 : s.in_menu = false) (h2 : s.multiplayer_active = false)
    (h3 : s.difficulty ≠ some Difficulty.multiplayer)
    (h4 : s.game_state = GState.playing) :
    tick s i =
      (let rem0 := s.level_time_target - (i.now - s.level_start_time)
       let rem := if rem0 < 0 then 0 else rem0
       let s3 : GameState :=
         { s with last_btn_state := i.btn,
                  player_x := player_move s.player_x i.accel }
       let s4 := sp_hit_check (sp_pass_complete
         { s3 with claw_y_offset := s3.claw_y_offset + s3.claw_speed,
                   claw_line3_y := CLAW_Y3_BASE +
                     py_int (s3.claw_y_offset + s3.claw_speed) } i.rand1)
         i.now
       hs_menu_phase (level_phase s4 i rem) i
         (s.last_btn_state && !i.btn)) := by
  rw [tick_not_menu s i h1]
  dsimp only
  rw [uart_phase_of_inactive { s with last_btn_state := i.btn } i h2]
  dsimp only
  rw [send_phase_of_inactive
    { s with last_btn_state := i.btn,
             player_x := player_move s.player_x i.accel } i h2]
  rw [claw_phase_sp
    { s with last_btn_state := i.btn,
             player_x := player_move s.player_x i.accel } i h3 h4]

/-- Counterexample for C7: at cex7_state with the quiet 3/10-clock input,
the tick's collision check sees the claw lowest line at the player row
(y 52, claw x 0, player x 10 — the player center exactly on the left
grabber) with the pass's hit flag clear, yet no life is lost, because
only 3/10 s elapsed since the last hit and the code also requires the
0.5 s cooldown the claim excludes. -/
theorem C7_counterexample :
    cex7_state.claw_has_hit = false ∧
    check_collision 0 52 10 = true ∧
    (tick cex7_state cex7_input).claw_x = 0 ∧
    (tick cex7_state cex7_input).claw_line3_y = 52 ∧
    (tick cex7_state cex7_input).player_x = 10 ∧
    (tick cex7_state cex7_input).lives = 3 := by
  have hmove : player_move 10 (some 0) = 10 := by
    norm_num [player_move, map_range, py_int, ACCEL_MIN, ACCEL_MAX,
      SCREEN_WIDTH, PLAYER_WIDTH]
  have hkey : tick cex7_state cex7_input =
      { cex7_state with claw_y_offset := 30, claw_line3_y := 52 } := by
    rw [tick_sp cex7_state cex7_input rfl rfl (by decide) rfl]
    dsimp only [cex7_state, cex7_input]
    rw [hmove, sp_pass_complete_eq, if_neg (by norm_num [PLAYER_Y]),
      sp_hit_check_eq, if_neg]
    · rw [level_phase_of_pos _ _ _ (by norm_num),
        hs_menu_phase_of_playing _ _ _ rfl rfl]
      norm_num [py_int, CLAW_Y3_BASE, cex7_state]
    · rintro ⟨-, -, hc⟩
      norm_num [HIT_COOLDOWN] at hc
  refine ⟨rfl, by decide, ?_, ?_, ?_, ?_⟩ <;> rw [hkey] <;> rfl

/-- C7 (amended): in a single-player Playing tick, a life is lost exactly
when the collision predicate holds at the tick's post-update positions,
the pass's hit flag (cleared first on a same-tick respawn) is clear, AND
more than HIT_COOLDOWN = 0.5 s have elapsed since the last hit — the
cooldown applies in single player too, so enforcement is by flag and
time together; the flag still limits losses to one per pass. -/
theorem C7_single_player_hit_gating (s : GameState) (i : TickInput)
    (h1 : s.in_menu = false) (h2 : s.multiplayer_active = false)
    (h3 : s.difficulty ≠ some Difficulty.multiplayer)
    (h4 : s.game_state = GState.playing)
    (h5 : s.entering_initials = false) :
    (tick s i).lives =
      if ((if s.claw_y_offset + s.claw_speed > ((PLAYER_Y : Int) : ℚ) + 8
            then false else s.claw_has_hit) = false ∧
          check_collision
            (if s.claw_y_offset + s.claw_speed > ((PLAYER_Y : Int) : ℚ) + 8
              then i.rand1 else s.claw_x)
            (CLAW_Y3_BASE + py_int (s.claw_y_offset + s.claw_speed))
            (player_move s.player_x i.accel) = true ∧
          i.now - s.last_hit_time > HIT_COOLDOWN)
      then s.lives - 1 else s.lives := by
  rw [tick_sp s i h1 h2 h3 h4]
  dsimp only
  rw [hs_menu_phase_lives, level_phase_lives, sp_chain_lives_char]
  rw [level_phase_entering, sp_chain_entering]
  exact h5

/-- Witness for C7: the same state as the counterexample but 1 s on the
clock, so the cooldown is satisfied and the life is lost. -/
theorem C7_single_player_hit_gating_witness :
    (tick cex7_state wit7_input).lives = 2 := by
  have h := C7_single_player_hit_gating cex7_state wit7_input rfl rfl
    (by decide) rfl rfl
  rw [h, if_pos]
  · rfl
  · refine ⟨?_, ?_, ?_⟩
    · norm_num [cex7_state, PLAYER_Y]
    · have hmove : player_move 10 (some 0) = 10 := by
        norm_num [player_move, map_range, py_int, ACCEL_MIN, ACCEL_MAX,
          SCREEN_WIDTH, PLAYER_WIDTH]
      norm_num [cex7_state, wit7_input, cex7_input, PLAYER_Y, CLAW_Y3_BASE,
        py_int, hmove]
      decide
    · norm_num [cex7_state, wit7_input, cex7_input, HIT_COOLDOWN]

/-- C8: on the single-player tick where the claw offset first advances
strictly past PLAYER_Y + 8, the score goes up by exactly one iff the
pass's hit flag was never set, the offset resets to CLAW_RESET_Y, the hit
flag clears, and the claw x becomes the randint draw over the extended
range [-10, SCREEN_WIDTH - CLAW_WIDTH + 10]. -/
theorem C8_pass_completion (s : GameState) (i : TickInput)
    (h1 : s.in_menu = false) (h2 : s.multiplayer_active = false)
    (h3 : s.difficulty ≠ some Difficulty.multiplayer)
    (h4 : s.game_state = GState.playing)
    (h5 : s.entering_initials = false)
    (h6 : s.claw_y_offset + s.claw_speed > ((PLAYER_Y : Int) : ℚ) + 8)
    (h7 : 0 < s.level_time_target - (i.now - s.level_start_time))
    (h8 : -10 ≤ i.rand1)
    (h9 : i.rand1 ≤ SCREEN_WIDTH - CLAW_WIDTH + 10) :
    (tick s i).score =
      (if s.claw_has_hit = false then s.score + 1 else s.score) ∧
    (tick s i).claw_y_offset = ((CLAW_RESET_Y : Int) : ℚ) ∧
    (tick s i).claw_has_hit = false ∧
    (tick s i).claw_x = i.rand1 ∧
    -10 ≤ (tick s i).claw_x ∧
    (tick s i).claw_x ≤ SCREEN_WIDTH - CLAW_WIDTH + 10 := by
  have h60 : (60 : ℚ) < s.claw_y_offset + s.claw_speed := by
    have h := h6
    rw [PLAYER_Y] at h
    norm_num at h
    exact h
  have hfl : (60 : Int) ≤ ⌊s.claw_y_offset + s.claw_speed⌋ :=
    Int.le_floor.mpr (by push_cast; linarith)
  have hnn : ¬(s.claw_y_offset + s.claw_speed < 0) := not_lt.mpr (by linarith)
  have hy : PLAYER_Y + 4 < CLAW_Y3_BASE + py_int (s.claw_y_offset + s.claw_speed) := by
    simp only [py_int, if_neg hnn, PLAYER_Y, CLAW_Y3_BASE]
    omega
  have hcol : check_collision i.rand1
      (CLAW_Y3_BASE + py_int (s.claw_y_offset + s.claw_speed))
      (player_move s.player_x i.accel) = false :=
    check_collision_eq_false_of_past _ _ _ hy
  rw [tick_sp s i h1 h2 h3 h4]
  dsimp only
  rw [sp_chain_pass_done _ i.rand1 i.now (by dsimp only; exact h6)
    (by dsimp only; exact hcol)]
  rw [level_phase_of_pos _ i _ (by rw [if_neg (not_lt.mpr (le_of_lt h7))]; exact h7)]
  rw [hs_menu_phase_of_playing _ i _ (by dsimp only; exact h5)
    (by dsimp only; exact h4)]
  exact ⟨rfl, rfl, rfl, rfl, h8, h9⟩

/-- Witness for C8: from wit8_state (offset 58, speed 3, score 5, no hit
flag) the tick at clock 1 with draw 44 scores the dodge and respawns. -/
theorem C8_pass_completion_witness :
    (tick wit8_state wit7_input).score = 6 ∧
    (tick wit8_state wit7_input).claw_y_offset = -10 ∧
    (tick wit8_state wit7_input).claw_has_hit = false ∧
    (tick wit8_state wit7_input).claw_x = 44 := by
  have h := C8_pass_completion wit8_state wit7_input rfl rfl (by decide)
    rfl rfl
    (by norm_num [wit8_state, cex7_state, PLAYER_Y])
    (by norm_num [wit8_state, cex7_state, wit7_input, cex7_input])
    (by norm_num [wit7_input, cex7_input])
    (by norm_num [wit7_input, cex7_input, SCREEN_WIDTH, CLAW_WIDTH])
  refine ⟨?_, ?_, h.2.2.1, ?_⟩
  · rw [h.1]
    rfl
  · rw [h.2.1]
    norm_num [CLAW_RESET_Y]
  · rw [h.2.2.2.1]
    rfl

/-- Witness for C10: a menu tick (with game_state still reading PLAYING,
as after returning from the high-score screen) at a concrete state with a
held-up button. -/
theorem C10_menu_tick_preserves_session_witness :
    (tick boot_state
        { btn := true, rot_a := false, rot_b := false, accel := some 2,
          now := 5, uart_lines := [], uart_ok := false, send_ok := false,
          rand1 := 0, rand2 := 0 }).player_x = boot_state.player_x ∧
    (tick boot_state
        { btn := true, rot_a := false, rot_b := false, accel := some 2,
          now := 5, uart_lines := [], uart_ok := false, send_ok := false,
          rand1 := 0, rand2 := 0 }).lives = boot_state.lives := by
  have h := C10_menu_tick_preserves_session boot_state
    { btn := true, rot_a := false, rot_b := false, accel := some 2,
      now := 5, uart_lines := [], uart_ok := false, send_ok := false,
      rand1 := 0, rand2 := 0 } rfl (by decide)
  exact ⟨h.1, h.2.2.1⟩

end DodgeGame
